import Mathlib

/-!
Shallow embedding of the streaming chat client in
src/chat_rag_explorer/static/script.js (the chat page).

The embedding models the state touched by the submit handler
(lines 307-444), the per-chunk processing of the streamed response
(lines 381-416), the metrics accumulator updateMetrics (lines 446-467),
clearChat (lines 60-90), session persistence (lines 104-157) and the
request-body construction (lines 341-353).

Browser and library facilities that the client merely consumes are
modelled as follows: markdown rendering plus sanitizing
(marked.parse composed with DOMPurify.sanitize) is an arbitrary function
render, passed as a parameter; the TextDecoder is the identity on the
already-decoded text chunks; sessionStorage holds the parsed values
directly (the client only ever stores JSON.stringify output, which
round-trips); JSON.parse is modelled on the fragment of JSON actually
carried by metadata frames, namely flat objects whose values are
integers or escape-free strings.
-/

/-- Data model of one history entry: an object with role and content,
as pushed in script.js lines 291-293, 328 and 427. -/
structure ConversationMessage where
  role : String
  content : String
deriving DecidableEq, Repr

/-- The running token totals, script.js lines 256-260. -/
structure SessionMetrics where
  prompt_tokens : Int
  completion_tokens : Int
  total_tokens : Int
deriving DecidableEq, Repr

/-- The payload of a metadata frame as consumed by updateMetrics:
each field may be absent. -/
structure UsageMetadata where
  model : Option String
  prompt_tokens : Option Int
  completion_tokens : Option Int
  total_tokens : Option Int
deriving DecidableEq, Repr

/-! ### A model of JSON.parse on the metadata fragment

JSON.parse is a browser builtin, not code of this repository.  The
metadata frames carry flat objects with integer or plain string values
(the UsageMetadata shape), so the model below parses exactly that
fragment: an object of comma-separated string-keyed members whose
values are escape-free string literals or integer literals, with
whitespace allowed between tokens.  Anything else is a parse failure,
matching JSON.parse throwing. -/

/-- A JSON value of the metadata fragment. -/
inductive Jv where
  | num (n : Int)
  | str (s : String)
deriving DecidableEq, Repr

/-- Skip JSON whitespace. -/
def skipWs : List Char → List Char
  | [] => []
  | c :: cs =>
    if c = ' ' ∨ c = '\t' ∨ c = '\n' ∨ c = '\r' then skipWs cs else c :: cs

/-- Body of a string literal after the opening quote: the raw
characters up to the closing quote.  Escapes do not occur in the
metadata fragment, so a backslash fails the parse. -/
def parseStrBody : List Char → Option (List Char × List Char)
  | [] => none
  | c :: cs =>
    if c = '"' then some ([], cs)
    else if c = '\\' then none
    else
      match parseStrBody cs with
      | some (acc, rest) => some (c :: acc, rest)
      | none => none

/-- Greedily take leading decimal digits. -/
def takeDigits : List Char → (List Char × List Char)
  | [] => ([], [])
  | c :: cs =>
    if c.isDigit then
      let (ds, rest) := takeDigits cs
      (c :: ds, rest)
    else ([], c :: cs)

/-- Decimal value of a digit list. -/
def digitsToNat (ds : List Char) : Nat :=
  ds.foldl (fun n c => n * 10 + (c.toNat - 48)) 0

/-- An integer literal, with optional leading minus sign. -/
def parseNum : List Char → Option (Jv × List Char)
  | '-' :: cs =>
    match takeDigits cs with
    | ([], _) => none
    | (ds, rest) => some (Jv.num (-(Int.ofNat (digitsToNat ds))), rest)
  | cs =>
    match takeDigits cs with
    | ([], _) => none
    | (ds, rest) => some (Jv.num (Int.ofNat (digitsToNat ds)), rest)

/-- A value of the fragment: a string literal or an integer literal. -/
def parseValue (cs : List Char) : Option (Jv × List Char) :=
  match skipWs cs with
  | '"' :: rest =>
    match parseStrBody rest with
    | some (s, r) => some (Jv.str (String.mk s), r)
    | none => none
  | cs2 => parseNum cs2

/-- One or more comma-separated members, consuming the closing brace.
Fueled by the input length to make termination evident. -/
def parseMembers : Nat → List Char → Option (List (String × Jv) × List Char)
  | 0, _ => none
  | fuel + 1, cs =>
    match skipWs cs with
    | '"' :: rest =>
      match parseStrBody rest with
      | none => none
      | some (key, r1) =>
        match skipWs r1 with
        | ':' :: r2 =>
          match parseValue r2 with
          | none => none
          | some (v, r3) =>
            match skipWs r3 with
            | ',' :: r4 =>
              match parseMembers fuel r4 with
              | some (ps, r5) => some ((String.mk key, v) :: ps, r5)
              | none => none
            | '\x7d' :: r4 => some ([(String.mk key, v)], r4)
            | _ => none
        | _ => none
    | _ => none

/-- Parse a whole flat JSON object, requiring the input be exhausted. -/
def parseJsonObj (s : String) : Option (List (String × Jv)) :=
  match skipWs s.data with
  | '\x7b' :: rest =>
    match skipWs rest with
    | '\x7d' :: r2 => if skipWs r2 = [] then some [] else none
    | rest2 =>
      match parseMembers (rest2.length + 1) rest2 with
      | some (ps, r) => if skipWs r = [] then some ps else none
      | none => none
  | _ => none

/-- Integer-valued member lookup. -/
def numField (ps : List (String × Jv)) (k : String) : Option Int :=
  match ps.lookup k with
  | some (Jv.num n) => some n
  | _ => none

/-- String-valued member lookup. -/
def strField (ps : List (String × Jv)) (k : String) : Option String :=
  match ps.lookup k with
  | some (Jv.str s) => some s
  | _ => none

/-- JSON.parse of a metadata payload, read through the fields that
updateMetrics consumes. -/
def parseUsage (s : String) : Option UsageMetadata :=
  (parseJsonObj s).map fun ps =>
    { model := strField ps "model"
      prompt_tokens := numField ps "prompt_tokens"
      completion_tokens := numField ps "completion_tokens"
      total_tokens := numField ps "total_tokens" }

/-! ### The stream consumer, script.js lines 307-467 -/

/-- The metadata sentinel checked at script.js line 396. -/
def metaMarker : String := "__METADATA__:"

/-- JS String.prototype.startsWith (a browser builtin), on decoded
strings: the pattern is an initial segment of the string. -/
def jsStartsWith (s pat : String) : Bool :=
  pat.data.isPrefixOf s.data

/-- JS String.prototype.trim (a browser builtin): strip whitespace
from both ends. -/
def jsTrim (s : String) : String :=
  String.mk
    (((s.data.dropWhile Char.isWhitespace).reverse.dropWhile
        Char.isWhitespace).reverse)

/-- JS String.prototype.replace with a plain-string pattern and empty
replacement: remove the first occurrence of the pattern, if any
(script.js line 398). -/
def removeFirstAux (pat : List Char) : List Char → List Char
  | [] => []
  | c :: cs =>
    if pat.isPrefixOf (c :: cs) then (c :: cs).drop pat.length
    else c :: removeFirstAux pat cs

/-- String form of removeFirstAux. -/
def jsReplaceOnce (s pat : String) : String :=
  String.mk (removeFirstAux pat.data s.data)

/-- JS truthiness guard on a numeric field followed by an addition:
updateMetrics runs the addition only when the field is present and
nonzero (script.js lines 456-458). -/
def addIfTruthy (cur : Int) : Option Int → Int
  | some n => if n ≠ 0 then cur + n else cur
  | none => cur

/-- updateMetrics, script.js lines 446-467: add each truthy field of
the parsed usage data onto the session totals. -/
def updateMetrics (m : SessionMetrics) (data : UsageMetadata) : SessionMetrics :=
  { prompt_tokens := addIfTruthy m.prompt_tokens data.prompt_tokens
    completion_tokens := addIfTruthy m.completion_tokens data.completion_tokens
    total_tokens := addIfTruthy m.total_tokens data.total_tokens }

/-- The state mutated by the read loop of script.js lines 381-416:
the accumulated messageBuffer, the innerHTML of the bot message div,
the session totals, and a log of the successful updateMetrics calls
(one entry per successfully parsed metadata frame). -/
structure StreamAcc where
  messageBuffer : String
  botHtml : String
  sessionMetrics : SessionMetrics
  events : List UsageMetadata
deriving DecidableEq, Repr

/-- One iteration of the read loop on a delivered chunk, script.js
lines 395-415.  A chunk beginning with the metadata sentinel is
stripped and fed to JSON.parse: on success updateMetrics runs once, on
failure the error is logged and the chunk ignored; either way the loop
continues without rendering the chunk.  Every other chunk is appended
to messageBuffer, which is re-rendered in full. -/
def processChunk (render : String → String) (acc : StreamAcc) (chunk : String) :
    StreamAcc :=
  if jsStartsWith chunk metaMarker then
    match parseUsage (jsReplaceOnce chunk metaMarker) with
    | some usageData =>
      { acc with
          sessionMetrics := updateMetrics acc.sessionMetrics usageData
          events := acc.events ++ [usageData] }
    | none => acc
  else
    let buf := acc.messageBuffer ++ chunk
    { acc with messageBuffer := buf, botHtml := render buf }

/-- The whole read loop over the delivered chunks, starting from the
empty messageBuffer and the empty bot message div appended at
script.js line 335. -/
def runStream (render : String → String) (m : SessionMetrics)
    (chunks : List String) : StreamAcc :=
  chunks.foldl (processChunk render) ⟨"", render "", m, []⟩

/-- One message div of the visible transcript (chat-history element):
its role class and the HTML content of its content div. -/
structure TranscriptEntry where
  role : String
  html : String
deriving DecidableEq, Repr

/-- Overwrite the innerHTML of the last transcript entry (the bot
message div of the current turn). -/
def updateLastHtml : List TranscriptEntry → String → List TranscriptEntry
  | [], _ => []
  | [e], h => [{ e with html := h }]
  | e :: rest, h => e :: updateLastHtml rest h

/-- The error annotation appended to the bot message div in the catch
block, script.js line 438. -/
def errorSpan (m : String) : String :=
  " <span style=\"color: red;\">[Error: " ++ m ++ "]</span>"

/-- The client state the claims are about: the in-memory
conversationHistory and sessionMetrics, the two sessionStorage slots
written by saveConversationToSession (held as parsed values, since
only JSON.stringify output is ever stored), the visible transcript,
and a log of all updateMetrics calls. -/
structure AppState where
  conversationHistory : List ConversationMessage
  sessionMetrics : SessionMetrics
  sessionHistoryStore : Option (List ConversationMessage)
  sessionMetricsStore : Option SessionMetrics
  transcript : List TranscriptEntry
  metricsEvents : List UsageMetadata
deriving DecidableEq, Repr

/-- saveConversationToSession, script.js lines 105-108: store the
current history and metrics. -/
def saveConversationToSession (st : AppState) : AppState :=
  { st with
      sessionHistoryStore := some st.conversationHistory
      sessionMetricsStore := some st.sessionMetrics }

/-- clearConversationSession, script.js lines 111-114. -/
def clearConversationSession (st : AppState) : AppState :=
  { st with sessionHistoryStore := none, sessionMetricsStore := none }

/-- clearChat, script.js lines 60-90: empty the transcript, reset the
history to the lone system message, zero the metrics, and clear the
sessionStorage slots. -/
def clearChat (currentSystemPrompt : String) (st : AppState) : AppState :=
  clearConversationSession
    { st with
        transcript := []
        conversationHistory := [⟨"system", currentSystemPrompt⟩]
        sessionMetrics := ⟨0, 0, 0⟩ }

/-- Re-rendering of a restored history to the transcript, script.js
lines 127-136: user messages as text, assistant messages through the
renderer, system messages skipped. -/
def renderRestored (render : String → String) :
    List ConversationMessage → List TranscriptEntry
  | [] => []
  | m :: rest =>
    (if m.role = "user" then [⟨"user", m.content⟩]
     else if m.role = "assistant" then [⟨"bot", render m.content⟩]
     else []) ++ renderRestored render rest

/-- restoreConversationFromSession, script.js lines 117-157: when a
saved history exists it is restored and re-rendered and the function
returns true at line 138, before the saved-metrics block at lines
144-154 runs; that block runs only when no saved history exists. -/
def restoreConversationFromSession (render : String → String) (st : AppState) :
    AppState × Bool :=
  match st.sessionHistoryStore with
  | some savedHistory =>
    ({ st with
        conversationHistory := savedHistory
        transcript := st.transcript ++ renderRestored render savedHistory },
     true)
  | none =>
    match st.sessionMetricsStore with
    | some savedMetrics => ({ st with sessionMetrics := savedMetrics }, false)
    | none => (st, false)

/-- A model's directory entry as consumed by updateParameterControls,
script.js lines 184-195. -/
structure ModelInfo where
  id : String
  supported_parameters : Option (List String)
deriving DecidableEq, Repr

/-- The supportedParams variable after updateParameterControls ran on
a directory listing, script.js lines 186-195: the selected model's
supported_parameters when present, otherwise empty. -/
def supportedParamsFor (models : List ModelInfo) (currentModel : String) :
    List String :=
  match models.find? (fun m => m.id == currentModel) with
  | some m =>
    match m.supported_parameters with
    | some ps => ps
    | none => []
  | none => []

/-- The chat request body, script.js lines 342-353: messages and model
always, temperature and top_p only when supported. -/
structure RequestBody where
  messages : List ConversationMessage
  model : String
  temperature : Option Float
  top_p : Option Float

/-- Request-body construction, script.js lines 342-353. -/
def buildRequestBody (history : List ConversationMessage) (model : String)
    (supportedParams : List String) (temperatureVal topPVal : Float) :
    RequestBody :=
  { messages := history
    model := model
    temperature :=
      if supportedParams.contains "temperature" then some temperatureVal else none
    top_p :=
      if supportedParams.contains "top_p" then some topPVal else none }

/-- The outcome of the fetch at script.js line 362 as the handler sees
it: either a non-ok status (line 370), or an ok response delivering a
list of decoded chunks followed by a clean done signal or by an
exception carrying a message. -/
inductive ChatResponse where
  | httpError (status : Nat)
  | stream (chunks : List String) (streamError : Option String)
deriving DecidableEq, Repr

/-- The chat-form submit handler, script.js lines 307-444, acting on
the claim-relevant state.  An input that trims to empty returns at
line 311.  Otherwise the user message is pushed and both slots saved
(lines 328-329), the user div and the empty bot div are appended
(lines 332-335), and the response is consumed: a non-ok status throws
into the catch block, which appends the error span to the bot div; a
stream is folded through processChunk, and then either the error span
is appended (catch), or on done a non-empty messageBuffer is committed
as the assistant message and saved (lines 425-429). -/
def handleSubmit (render : String → String) (st : AppState) (rawInput : String)
    (resp : ChatResponse) : AppState :=
  let message := jsTrim rawInput
  if message = "" then st
  else
    let st1 := saveConversationToSession
      { st with conversationHistory := st.conversationHistory ++ [⟨"user", message⟩] }
    let st2 := { st1 with
      transcript := st1.transcript ++
        [TranscriptEntry.mk "user" message, TranscriptEntry.mk "bot" (render "")] }
    match resp with
    | .httpError status =>
      { st2 with
          transcript := updateLastHtml st2.transcript
            (render "" ++ errorSpan ("HTTP error! status: " ++ toString status)) }
    | .stream chunks streamError =>
      let acc := runStream render st2.sessionMetrics chunks
      let st3 := { st2 with
        sessionMetrics := acc.sessionMetrics
        metricsEvents := st2.metricsEvents ++ acc.events }
      match streamError with
      | some m =>
        { st3 with
            transcript := updateLastHtml st3.transcript (acc.botHtml ++ errorSpan m) }
      | none =>
        let st4 := { st3 with
          transcript := updateLastHtml st3.transcript acc.botHtml }
        if acc.messageBuffer = "" then st4
        else
          saveConversationToSession
            { st4 with
                conversationHistory :=
                  st4.conversationHistory ++ [⟨"assistant", acc.messageBuffer⟩] }

/-! ### Shared helper definitions and lemmas -/

/-- The concatenation of a chunk list in arrival order; the reference
value that the accumulated buffer is compared against. -/
def concatChunks : List String → String
  | [] => ""
  | c :: cs => c ++ concatChunks cs

/-- A concrete small client state used to instantiate theorems. -/
def sampleState : AppState :=
  { conversationHistory := [⟨"system", "sys"⟩]
    sessionMetrics := ⟨0, 0, 0⟩
    sessionHistoryStore := none
    sessionMetricsStore := none
    transcript := []
    metricsEvents := [] }

theorem updateLastHtml_append (xs : List TranscriptEntry)
    (b : TranscriptEntry) (h : String) :
    updateLastHtml (xs ++ [b]) h = xs ++ [{ b with html := h }] := by
  induction xs with
  | nil => rfl
  | cons x xs ih =>
    cases xs with
    | nil => rfl
    | cons y ys => simpa [updateLastHtml] using ih

theorem updateLastHtml_append2 (xs : List TranscriptEntry)
    (a b : TranscriptEntry) (h : String) :
    updateLastHtml (xs ++ [a, b]) h = xs ++ [a, { b with html := h }] := by
  have e : xs ++ [a, b] = (xs ++ [a]) ++ [b] := by simp
  rw [e, updateLastHtml_append]
  simp

theorem processChunk_content (render : String → String) (acc : StreamAcc)
    (chunk : String) (h : jsStartsWith chunk metaMarker = false) :
    processChunk render acc chunk =
      { acc with
          messageBuffer := acc.messageBuffer ++ chunk
          botHtml := render (acc.messageBuffer ++ chunk) } := by
  simp [processChunk, h]

theorem foldl_processChunk_content (render : String → String)
    (chunks : List String) :
    ∀ acc : StreamAcc, (∀ c ∈ chunks, jsStartsWith c metaMarker = false) →
      ((chunks.foldl (processChunk render) acc).messageBuffer
          = acc.messageBuffer ++ concatChunks chunks)
      ∧ ((chunks.foldl (processChunk render) acc).botHtml
          = if chunks = [] then acc.botHtml
            else render (acc.messageBuffer ++ concatChunks chunks)) := by
  induction chunks with
  | nil => intro acc _; simp [concatChunks, String.append_empty]
  | cons c cs ih =>
    intro acc h
    have hc : jsStartsWith c metaMarker = false := h c (by simp)
    have hcs : ∀ x ∈ cs, jsStartsWith x metaMarker = false :=
      fun x hx => h x (by simp [hx])
    rw [List.foldl_cons, processChunk_content render acc c hc]
    rcases ih _ hcs with ⟨h1, h2⟩
    refine ⟨?_, ?_⟩
    · rw [h1]; simp [concatChunks, String.append_assoc]
    · rw [h2]
      cases cs with
      | nil => simp [concatChunks, String.append_empty]
      | cons d ds => simp [concatChunks, String.append_assoc]

/-- Claim C1: a stream composed solely of content chunks (none
beginning with the metadata sentinel) accumulates and renders exactly
the concatenation of the chunks in arrival order, with no reordering,
coalescing or dropping. -/
theorem content_stream_renders_concat (render : String → String)
    (m : SessionMetrics) (chunks : List String)
    (h : ∀ c ∈ chunks, jsStartsWith c metaMarker = false) :
    (runStream render m chunks).messageBuffer = concatChunks chunks ∧
    (runStream render m chunks).botHtml = render (concatChunks chunks) := by
  rcases foldl_processChunk_content render chunks ⟨"", render "", m, []⟩ h with
    ⟨h1, h2⟩
  unfold runStream
  refine ⟨by simpa using h1, ?_⟩
  rw [h2]
  cases chunks with
  | nil => simp [concatChunks]
  | cons c cs => simp

theorem content_stream_renders_concat_witness :
    (runStream id ⟨0, 0, 0⟩ ["Hello, ", "world"]).messageBuffer = "Hello, world" ∧
    (runStream id ⟨0, 0, 0⟩ ["Hello, ", "world"]).botHtml = "Hello, world" := by
  have h := content_stream_renders_concat id ⟨0, 0, 0⟩ ["Hello, ", "world"]
    (by decide)
  have e : concatChunks ["Hello, ", "world"] = "Hello, world" := by decide
  rw [e] at h
  exact h

/-- The exact metadata chunk of the claim, carrying prompt_tokens 5. -/
def metaExample : String := "__METADATA__:\x7b\"prompt_tokens\":5\x7d"

/-- Claim C2: a chunk is treated as a metadata frame exactly when its
text begins with the sentinel; such a chunk adds nothing to the
accumulated buffer or the rendered content, and when its remainder
parses as JSON it produces exactly one metrics update; in particular
the concrete chunk carrying prompt_tokens 5 yields exactly one usage
event with prompt_tokens 5 and contributes zero characters. -/
theorem metadata_frame_contract (render : String → String) (acc : StreamAcc)
    (chunk : String) :
    (jsStartsWith chunk metaMarker = true →
      (processChunk render acc chunk).messageBuffer = acc.messageBuffer ∧
      (processChunk render acc chunk).botHtml = acc.botHtml ∧
      ∀ u, parseUsage (jsReplaceOnce chunk metaMarker) = some u →
        (processChunk render acc chunk).events = acc.events ++ [u] ∧
        (processChunk render acc chunk).sessionMetrics =
          updateMetrics acc.sessionMetrics u) ∧
    (jsStartsWith chunk metaMarker = false →
      (processChunk render acc chunk).messageBuffer =
        acc.messageBuffer ++ chunk ∧
      (processChunk render acc chunk).events = acc.events ∧
      (processChunk render acc chunk).sessionMetrics = acc.sessionMetrics) ∧
    (chunk = metaExample →
      (processChunk render acc chunk).messageBuffer = acc.messageBuffer ∧
      (processChunk render acc chunk).botHtml = acc.botHtml ∧
      (processChunk render acc chunk).events =
        acc.events ++ [⟨none, some 5, none, none⟩]) := by
  refine ⟨?_, ?_, ?_⟩
  · intro h
    cases hp : parseUsage (jsReplaceOnce chunk metaMarker) with
    | none => simp [processChunk, h, hp]
    | some u0 =>
      refine ⟨?_, ?_, ?_⟩
      · simp [processChunk, h, hp]
      · simp [processChunk, h, hp]
      · intro u hu
        simp only [Option.some.injEq] at hu
        subst hu
        simp [processChunk, h, hp]
  · intro h
    simp [processChunk, h]
  · intro h
    subst h
    have h1 : jsStartsWith metaExample metaMarker = true := by decide
    have h2 : parseUsage (jsReplaceOnce metaExample metaMarker) =
        some ⟨none, some 5, none, none⟩ := by decide
    simp [processChunk, h1, h2]

theorem metadata_frame_contract_witness :
    (processChunk id ⟨"", "", ⟨0, 0, 0⟩, []⟩ metaExample).messageBuffer = "" ∧
    (processChunk id ⟨"", "", ⟨0, 0, 0⟩, []⟩ metaExample).events =
      [⟨none, some 5, none, none⟩] := by
  have h :=
    (metadata_frame_contract id ⟨"", "", ⟨0, 0, 0⟩, []⟩ metaExample).2.2 rfl
  exact ⟨h.1, by simpa using h.2.2⟩

/-- Claim C3: on clean completion the accumulated buffer, when
non-empty, is committed as exactly one assistant message at the end of
the history; when the buffer is empty no assistant message is
appended. -/
theorem assistant_commit_on_done (render : String → String) (st : AppState)
    (raw : String) (chunks : List String) (h : jsTrim raw ≠ "") :
    ((runStream render st.sessionMetrics chunks).messageBuffer ≠ "" →
      (handleSubmit render st raw (.stream chunks none)).conversationHistory =
        st.conversationHistory ++
          [⟨"user", jsTrim raw⟩,
           ⟨"assistant",
              (runStream render st.sessionMetrics chunks).messageBuffer⟩]) ∧
    ((runStream render st.sessionMetrics chunks).messageBuffer = "" →
      (handleSubmit render st raw (.stream chunks none)).conversationHistory =
        st.conversationHistory ++ [⟨"user", jsTrim raw⟩]) := by
  constructor <;> intro hb <;>
    simp [handleSubmit, h, saveConversationToSession, hb]

theorem assistant_commit_on_done_witness :
    ((handleSubmit id sampleState "Hi" (.stream ["Hello"] none)).conversationHistory
      = [⟨"system", "sys"⟩, ⟨"user", "Hi"⟩, ⟨"assistant", "Hello"⟩]) ∧
    ((handleSubmit id sampleState "Hi" (.stream [] none)).conversationHistory
      = [⟨"system", "sys"⟩, ⟨"user", "Hi"⟩]) := by
  constructor
  · have h := (assistant_commit_on_done id sampleState "Hi" ["Hello"]
      (by decide)).1 (by decide)
    rw [h]
    decide
  · have h := (assistant_commit_on_done id sampleState "Hi" []
      (by decide)).2 (by decide)
    rw [h]
    decide

/-- The malformed metadata chunk of the claim. -/
def badMetaChunk : String := "__METADATA__:\x7bbad json"

/-- Claim C4: every sentinel chunk whose remainder is not valid JSON
is dropped without any effect on the state (no characters rendered, no
metrics update, no escaping exception), and the rest of the stream is
processed exactly as if the frame had not been there. -/
theorem malformed_metadata_ignored (render : String → String)
    (acc : StreamAcc) (chunk : String) (rest : List String)
    (h1 : jsStartsWith chunk metaMarker = true)
    (h2 : parseUsage (jsReplaceOnce chunk metaMarker) = none) :
    processChunk render acc chunk = acc ∧
    (chunk :: rest).foldl (processChunk render) acc =
      rest.foldl (processChunk render) acc := by
  have he : processChunk render acc chunk = acc := by
    simp [processChunk, h1, h2]
  exact ⟨he, by simp [he]⟩

theorem malformed_metadata_ignored_witness :
    processChunk id ⟨"", "", ⟨0, 0, 0⟩, []⟩ badMetaChunk =
      ⟨"", "", ⟨0, 0, 0⟩, []⟩ ∧
    ([badMetaChunk, "world"].foldl (processChunk id) ⟨"", "", ⟨0, 0, 0⟩, []⟩ =
      ["world"].foldl (processChunk id) ⟨"", "", ⟨0, 0, 0⟩, []⟩) :=
  malformed_metadata_ignored id ⟨"", "", ⟨0, 0, 0⟩, []⟩ badMetaChunk ["world"]
    (by decide) (by decide)

/-- Claim C5: a non-ok initial HTTP status makes the turn fail
fatally: no chunk is consumed (metrics, metrics events untouched), no
assistant message is appended, prior history entries survive intact in
memory and in sessionStorage, and the error is shown inline in the bot
message div. -/
theorem http_error_fatal_turn (render : String → String) (st : AppState)
    (raw : String) (status : Nat) (h : jsTrim raw ≠ "") :
    (handleSubmit render st raw (.httpError status)).conversationHistory =
      st.conversationHistory ++ [⟨"user", jsTrim raw⟩] ∧
    (handleSubmit render st raw (.httpError status)).sessionHistoryStore =
      some (st.conversationHistory ++ [⟨"user", jsTrim raw⟩]) ∧
    (handleSubmit render st raw (.httpError status)).sessionMetrics =
      st.sessionMetrics ∧
    (handleSubmit render st raw (.httpError status)).metricsEvents =
      st.metricsEvents ∧
    (handleSubmit render st raw (.httpError status)).transcript =
      st.transcript ++
        [⟨"user", jsTrim raw⟩,
         ⟨"bot", render "" ++
            errorSpan ("HTTP error! status: " ++ toString status)⟩] := by
  refine ⟨?_, ?_, ?_, ?_, ?_⟩ <;>
    simp [handleSubmit, h, saveConversationToSession, updateLastHtml_append2]

theorem http_error_fatal_turn_witness :
    (handleSubmit id sampleState "Hi" (.httpError 500)).conversationHistory =
      [⟨"system", "sys"⟩, ⟨"user", "Hi"⟩] ∧
    (handleSubmit id sampleState "Hi" (.httpError 500)).transcript =
      [⟨"user", "Hi"⟩,
       ⟨"bot", " <span style=\"color: red;\">[Error: HTTP error! status: 500]</span>"⟩] := by
  have h := http_error_fatal_turn id sampleState "Hi" 500 (by decide)
  refine ⟨?_, ?_⟩
  · rw [h.1]; decide
  · rw [h.2.2.2.2]; decide

/-- Claim C6: an exception in mid-stream after partial content leaves
the history without an assistant message for the turn (in memory and
in sessionStorage), while the bot message div keeps the rendered
partial content with the error annotation appended. -/
theorem midstream_error_preserves_history (render : String → String)
    (st : AppState) (raw : String) (chunks : List String) (emsg : String)
    (h : jsTrim raw ≠ "") :
    (handleSubmit render st raw (.stream chunks (some emsg))).conversationHistory =
      st.conversationHistory ++ [⟨"user", jsTrim raw⟩] ∧
    (handleSubmit render st raw (.stream chunks (some emsg))).sessionHistoryStore =
      some (st.conversationHistory ++ [⟨"user", jsTrim raw⟩]) ∧
    (handleSubmit render st raw (.stream chunks (some emsg))).transcript =
      st.transcript ++
        [⟨"user", jsTrim raw⟩,
         ⟨"bot", (runStream render st.sessionMetrics chunks).botHtml ++
            errorSpan emsg⟩] := by
  refine ⟨?_, ?_, ?_⟩ <;>
    simp [handleSubmit, h, saveConversationToSession, updateLastHtml_append2]

theorem midstream_error_preserves_history_witness :
    (handleSubmit id sampleState "Hi"
        (.stream ["Hello"] (some "network error"))).conversationHistory =
      [⟨"system", "sys"⟩, ⟨"user", "Hi"⟩] ∧
    (handleSubmit id sampleState "Hi"
        (.stream ["Hello"] (some "network error"))).transcript =
      [⟨"user", "Hi"⟩,
       ⟨"bot", "Hello <span style=\"color: red;\">[Error: network error]</span>"⟩] := by
  have h := midstream_error_preserves_history id sampleState "Hi" ["Hello"]
    "network error" (by decide)
  refine ⟨?_, ?_⟩
  · rw [h.1]; decide
  · rw [h.2.2]; decide

/-- An event carrying all three token counts. -/
def usageOf (p c t : Int) : UsageMetadata := ⟨none, some p, some c, some t⟩

theorem addIfTruthy_some (cur n : Int) : addIfTruthy cur (some n) = cur + n := by
  by_cases h : n = 0 <;> simp [addIfTruthy, h]

theorem updateMetrics_usageOf (m : SessionMetrics) (p c t : Int) :
    updateMetrics m (usageOf p c t) =
      ⟨m.prompt_tokens + p, m.completion_tokens + c, m.total_tokens + t⟩ := by
  simp [updateMetrics, usageOf, addIfTruthy_some]

theorem foldl_updateMetrics (ts : List (Int × Int × Int)) :
    ∀ m0 : SessionMetrics,
      ts.foldl (fun m pct => updateMetrics m (usageOf pct.1 pct.2.1 pct.2.2)) m0 =
        ⟨m0.prompt_tokens + (ts.map fun pct => pct.1).sum,
         m0.completion_tokens + (ts.map fun pct => pct.2.1).sum,
         m0.total_tokens + (ts.map fun pct => pct.2.2).sum⟩ := by
  induction ts with
  | nil => intro m0; simp
  | cons x xs ih =>
    intro m0
    rw [List.foldl_cons, updateMetrics_usageOf, ih]
    simp [add_assoc]

/-- Claim C7: after any sequence of successfully parsed metadata
events, each session counter equals its starting value plus the sum of
the corresponding values carried by the events, and clearChat resets
all three counters to zero (both in memory and in sessionStorage). -/
theorem metrics_accumulate_and_clear (m0 : SessionMetrics)
    (ts : List (Int × Int × Int)) (currentSystemPrompt : String)
    (st : AppState) :
    ((ts.foldl (fun m pct => updateMetrics m (usageOf pct.1 pct.2.1 pct.2.2))
        m0).prompt_tokens = m0.prompt_tokens + (ts.map fun pct => pct.1).sum) ∧
    ((ts.foldl (fun m pct => updateMetrics m (usageOf pct.1 pct.2.1 pct.2.2))
        m0).completion_tokens =
      m0.completion_tokens + (ts.map fun pct => pct.2.1).sum) ∧
    ((ts.foldl (fun m pct => updateMetrics m (usageOf pct.1 pct.2.1 pct.2.2))
        m0).total_tokens = m0.total_tokens + (ts.map fun pct => pct.2.2).sum) ∧
    (clearChat currentSystemPrompt st).sessionMetrics = ⟨0, 0, 0⟩ ∧
    (clearChat currentSystemPrompt st).sessionMetricsStore = none := by
  rw [foldl_updateMetrics]
  exact ⟨rfl, rfl, rfl, rfl, rfl⟩

/-- A state whose sessionStorage holds both a saved history and saved
metrics, as saveConversationToSession always writes them. -/
def savedSessionState : AppState :=
  { conversationHistory := [⟨"system", "sys"⟩]
    sessionMetrics := ⟨0, 0, 0⟩
    sessionHistoryStore :=
      some [⟨"system", "sys"⟩, ⟨"user", "Hi"⟩, ⟨"assistant", "Hello"⟩]
    sessionMetricsStore := some ⟨7, 8, 15⟩
    transcript := []
    metricsEvents := [] }

/-- Claim C8, evidence of the divergence: with both sessionStorage
slots populated, restoreConversationFromSession restores the saved
history and returns true, but leaves the in-memory metrics at their
reset value, never reading the saved metrics — the saved-metrics
branch of the function runs only when no saved history exists, so the
two stores do not share one restore lifecycle. -/
theorem restore_session_skips_metrics :
    (restoreConversationFromSession id savedSessionState).1.sessionMetrics =
      ⟨0, 0, 0⟩ ∧
    savedSessionState.sessionMetricsStore = some ⟨7, 8, 15⟩ ∧
    (restoreConversationFromSession id savedSessionState).1.conversationHistory =
      [⟨"system", "sys"⟩, ⟨"user", "Hi"⟩, ⟨"assistant", "Hello"⟩] ∧
    (restoreConversationFromSession id savedSessionState).2 = true := by
  decide

/-- Claim C9: the chat request body carries temperature exactly when
the selected model's supported_parameters (per the directory lookup)
contains it, and likewise for top_p; messages and model are always
present. -/
theorem request_params_iff_supported (models : List ModelInfo)
    (currentModel : String) (history : List ConversationMessage)
    (model : String) (temperatureVal topPVal : Float) :
    ((buildRequestBody history model (supportedParamsFor models currentModel)
        temperatureVal topPVal).temperature.isSome =
      (supportedParamsFor models currentModel).contains "temperature") ∧
    ((buildRequestBody history model (supportedParamsFor models currentModel)
        temperatureVal topPVal).top_p.isSome =
      (supportedParamsFor models currentModel).contains "top_p") ∧
    (buildRequestBody history model (supportedParamsFor models currentModel)
        temperatureVal topPVal).messages = history ∧
    (buildRequestBody history model (supportedParamsFor models currentModel)
        temperatureVal topPVal).model = model := by
  refine ⟨?_, ?_, rfl, rfl⟩
  · by_cases h : "temperature" ∈ supportedParamsFor models currentModel <;>
      simp [buildRequestBody, h]
  · by_cases h : "top_p" ∈ supportedParamsFor models currentModel <;>
      simp [buildRequestBody, h]

/-- Claim C10: the user message of a non-empty submission is appended
to the history and written to sessionStorage before the request
outcome is known, so it survives there whatever the response is — in
particular after an initial HTTP error and after a mid-stream error. -/
theorem user_message_persisted_before_request (render : String → String)
    (st : AppState) (raw : String) (h : jsTrim raw ≠ "") :
    (∀ status : Nat,
      (handleSubmit render st raw (.httpError status)).sessionHistoryStore =
        some (st.conversationHistory ++ [⟨"user", jsTrim raw⟩])) ∧
    (∀ (chunks : List String) (emsg : String),
      (handleSubmit render st raw (.stream chunks (some emsg))).sessionHistoryStore =
        some (st.conversationHistory ++ [⟨"user", jsTrim raw⟩])) ∧
    (∀ resp : ChatResponse, ∃ tail : List ConversationMessage,
      (handleSubmit render st raw resp).sessionHistoryStore =
        some (st.conversationHistory ++ ⟨"user", jsTrim raw⟩ :: tail)) ∧
    (∀ resp : ChatResponse,
      (⟨"user", jsTrim raw⟩ : ConversationMessage) ∈
        (handleSubmit render st raw resp).conversationHistory) := by
  refine ⟨?_, ?_, ?_, ?_⟩
  · intro status
    simp [handleSubmit, h, saveConversationToSession]
  · intro chunks emsg
    simp [handleSubmit, h, saveConversationToSession]
  · intro resp
    cases resp with
    | httpError status =>
      exact ⟨[], by simp [handleSubmit, h, saveConversationToSession]⟩
    | stream chunks streamError =>
      cases streamError with
      | some m =>
        exact ⟨[], by simp [handleSubmit, h, saveConversationToSession]⟩
      | none =>
        by_cases hb :
          (runStream render st.sessionMetrics chunks).messageBuffer = ""
        · exact ⟨[], by simp [handleSubmit, h, saveConversationToSession, hb]⟩
        · exact ⟨[⟨"assistant",
              (runStream render st.sessionMetrics chunks).messageBuffer⟩],
            by simp [handleSubmit, h, saveConversationToSession, hb]⟩
  · intro resp
    cases resp with
    | httpError status =>
      simp [handleSubmit, h, saveConversationToSession]
    | stream chunks streamError =>
      cases streamError with
      | some m => simp [handleSubmit, h, saveConversationToSession]
      | none =>
        by_cases hb :
          (runStream render st.sessionMetrics chunks).messageBuffer = "" <;>
          simp [handleSubmit, h, saveConversationToSession, hb]

theorem user_message_persisted_before_request_witness :
    (handleSubmit id sampleState "Hi" (.httpError 500)).sessionHistoryStore =
      some [⟨"system", "sys"⟩, ⟨"user", "Hi"⟩] := by
  have h :=
    (user_message_persisted_before_request id sampleState "Hi" (by decide)).1 500
  rw [h]
  decide
